import Mathlib

/-!
Shallow embedding of the PMRQMC build orchestrator (construct_sim.py).

The script merges a user-supplied TOML parameter document with the numerical
and observable defaults of class QMCsettings, writes a generated constants
header (parameters.hpp), stages custom observable files into the build
directory, and drives a two-stage external pipeline (prepare, then compile),
logging both stages to a timestamped file.

Python values arriving from the TOML document are modelled by PyVal;
Python dicts are insertion-ordered association lists; a raised Python
exception is an Except error value; each external subprocess.run call is
recorded in a BuildTrace together with its exit code, which is supplied by a
BuildEnv describing the environment (existing files, prepare and compiler
exit statuses).  Python floats are modelled as exact rationals.
-/

set_option autoImplicit false

namespace ConstructSim

/-- Runtime type tags as distinguished by Python's type(x) is type(y) test:
bool is a distinct tag from int, and int is distinct from float. -/
inductive PyType where
  | int
  | float
  | bool
  | str
  | list
deriving DecidableEq

/-- Values that can appear in a parsed TOML document (and in the settings
maps); Python floats are modelled as exact rationals. -/
inductive PyVal where
  | int (n : Int)
  | float (q : Rat)
  | bool (b : Bool)
  | str (s : String)
  | list (xs : List PyVal)

/-- The runtime type tag of a value, as compared by type(a) is type(b). -/
def pyType : PyVal → PyType
  | .int _ => .int
  | .float _ => .float
  | .bool _ => .bool
  | .str _ => .str
  | .list _ => .list

/-- The spec's coarser type notion for configuration validation, written
from the spec's words for comparison with the code's check: integer and
float are one numeric class, boolean its own class (claim C2's
refinement reading). -/
inductive SpecTypeClass where
  | numeric
  | boolean
  | other
deriving DecidableEq

/-- The spec's classification of a supplied value (integer/float treated
as one numeric type, boolean as another). -/
def specTypeClass : PyVal → SpecTypeClass
  | .int _ => .numeric
  | .float _ => .numeric
  | .bool _ => .boolean
  | _ => .other

/-- Python dict lookup (k in d, d[k]) over an insertion-ordered
association list. -/
def lookupv (k : String) : List (String × PyVal) → Option PyVal
  | [] => none
  | p :: rest => if p.1 = k then some p.2 else lookupv k rest

/-- Python dict update d[k] = v for a key already present: the binding is
replaced in place, preserving insertion order. -/
def setAssoc (m : List (String × PyVal)) (k : String) (v : PyVal) :
    List (String × PyVal) :=
  m.map (fun p => if p.1 = k then (k, v) else p)

/-- Python dict update d[k] = v in general: replace in place when the key
exists, otherwise append the new binding at the end. -/
def dictSet (m : List (String × PyVal)) (k : String) (v : PyVal) :
    List (String × PyVal) :=
  if (lookupv k m).isSome then setAssoc m k v else m ++ [(k, v)]

/-- The self.numerical defaults of QMCsettings.__init__, in declaration
order. -/
def default_numerical : List (String × PyVal) :=
  [("Tsteps", .int 1000000),
   ("steps", .int 10000000),
   ("stepsPerMeasurement", .int 10),
   ("beta", .float 1),
   ("qmax", .int 1000),
   ("Nbins", .int 250),
   ("EXHAUSTIVE_CYCLE_SEARCH", .bool true)]

/-- The self.std_observables defaults of QMCsettings.__init__, in
declaration order. -/
def default_std_observables : List (String × PyVal) :=
  [("MEASURE_H", .bool true),
   ("MEASURE_H2", .bool true),
   ("MEASURE_HDIAG", .bool true),
   ("MEASURE_HDIAG2", .bool true),
   ("MEASURE_HOFFDIAG", .bool true),
   ("MEASURE_HOFFDIAG2", .bool true),
   ("MEASURE_Z_MAGNETIZATION", .bool false)]

/-- The mutable state of a QMCsettings object. -/
structure QMCsettings where
  numerical : List (String × PyVal)
  std_observables : List (String × PyVal)
  custom_observable_files : List PyVal
  hamiltonian_file : Option PyVal

/-- QMCsettings state just before load_parameters runs in __init__. -/
def initSettings : QMCsettings :=
  { numerical := default_numerical
    std_observables := default_std_observables
    custom_observable_files := []
    hamiltonian_file := none }

/-- The AssertionError raised by one of the two bare asserts in
load_parameters; the offending key is recorded for the statements below
(Python's AssertionError itself carries no payload, but the failing
assert statement determines which line raised). -/
inductive LoadError where
  | assertNumerical (k : String)
  | assertObservable (k : String)
deriving DecidableEq

/-- One iteration of the loop body of QMCsettings.load_parameters. -/
def loadStep (s : QMCsettings) (kv : String × PyVal) :
    Except LoadError QMCsettings :=
  match lookupv kv.1 s.numerical with
  | some d =>
      if pyType d = pyType kv.2 then
        .ok { s with numerical := setAssoc s.numerical kv.1 kv.2 }
      else
        .error (.assertNumerical kv.1)
  | none =>
    match lookupv kv.1 s.std_observables with
    | some _ =>
        if pyType kv.2 = .bool then
          .ok { s with std_observables := setAssoc s.std_observables kv.1 kv.2 }
        else
          .error (.assertObservable kv.1)
    | none =>
        if kv.1 = "observables" then
          .ok { s with custom_observable_files :=
                  s.custom_observable_files ++ [kv.2] }
        else if kv.1 = "hamiltonian" then
          .ok { s with hamiltonian_file := some kv.2 }
        else
          .ok s

/-- QMCsettings.load_parameters: fold the loop body over the document's
key-value pairs in order; a failing assert aborts the loop. -/
def load_parameters (s : QMCsettings) :
    List (String × PyVal) → Except LoadError QMCsettings
  | [] => .ok s
  | kv :: rest =>
    match loadStep s kv with
    | .ok t => load_parameters t rest
    | .error e => .error e

/-- QMCsettings.__init__: defaults, then load_parameters on the parsed
document. -/
def mkQMCsettings (data : List (String × PyVal)) :
    Except LoadError QMCsettings :=
  load_parameters initSettings data

/-- Literal textual rendering of a value interpolated into an f-string
(Python str(); floats, modelled as rationals, are rendered via their
rational representation). -/
def render_value : PyVal → String
  | .int n => toString n
  | .float q => toString q
  | .bool b => if b then "True" else "False"
  | .str s => s
  | .list _ => "[...]"

/-- One line of the generated parameters.hpp for entry (k, v): booleans
become a #define with no value, commented out when False; every other
value becomes #define k v (the loop body of _write_parameters_hpp). -/
def define_line (k : String) (v : PyVal) : String :=
  match v with
  | .bool b => (if b then "" else "//") ++ "#define " ++ k ++ "\n"
  | _ => "#define " ++ k ++ " " ++ render_value v ++ "\n"

/-- The value of __file__ for the script (its path; the concrete string is
a fixed constant of one installation and never varies between two runs of
the same installation). -/
def FILE : String := "construct_sim.py"

/-- The two provenance comment lines written at the top of
parameters.hpp. -/
def hpp_header : String :=
  "// This file was generated automatically by \n" ++ "// " ++ FILE ++ "\n"

/-- Full content of the generated parameters.hpp: the header comment,
then one define line per entry of self.numerical followed by
self.std_observables, each map iterated in insertion order (the nested
for loops of _write_parameters_hpp). -/
def parameters_hpp_content
    (numerical std_observables : List (String × PyVal)) : String :=
  [numerical, std_observables].foldl
    (fun acc paramd =>
      paramd.foldl (fun a p => a ++ define_line p.1 p.2) acc)
    hpp_header

/-- Concatenation of a list of strings (used to state the emitted-content
decomposition). -/
def joinStr : List String → String
  | [] => ""
  | a :: rest => a ++ joinStr rest

/-- Whether a path is absolute (starts with a slash). -/
def isAbsolute (p : String) : Bool :=
  match p.data with
  | [] => false
  | c :: _ => c = '/'

/-- Whether a path ends with a slash. -/
def endsWithSlash (p : String) : Bool :=
  match p.data.getLast? with
  | some c => c = '/'
  | none => false

/-- os.path.join for two components. -/
def pathJoin (d f : String) : String :=
  if isAbsolute f then f
  else if d = "" ∨ endsWithSlash d then d ++ f
  else d ++ "/" ++ f

/-- os.path.basename: the part after the last slash. -/
def basename (p : String) : String :=
  String.mk (p.data.foldl (fun acc ch => if ch = '/' then [] else acc ++ [ch]) [])

/-- os.path.abspath relative to the orchestrator's working directory. -/
def abspath (cwd p : String) : String :=
  if isAbsolute p then p else pathJoin cwd p

/-- os.path.dirname(__file__) for a bare script name. -/
def script_dir : String := ""

/-- Module-level constant: path of the prepare executable. -/
def PREP_EXEC_PATH : String := pathJoin script_dir "bin/prepare"

/-- QMCsettings._write_parameters_hpp: destination path and the bytes
written there. -/
def write_parameters_hpp
    (numerical std_observables : List (String × PyVal)) (dest_dir : String) :
    String × String :=
  (pathJoin dest_dir "parameters.hpp",
   parameters_hpp_content numerical std_observables)

/-- The kind of external command handed to subprocess.run by build. -/
inductive ProcKind where
  | cp
  | prepare
  | compile
deriving DecidableEq

/-- One subprocess.run call: the argument vector and the exit code the
environment returned for it. -/
structure SpawnedProc where
  kind : ProcKind
  cmd : List String
  exitCode : Nat
deriving DecidableEq

/-- The two external pipeline stages of build. -/
inductive Stage where
  | prepare
  | compile
deriving DecidableEq

/-- How one call to build terminates: normal return, or a
subprocess.CalledProcessError re-raised from check_returncode of the
given stage. -/
inductive BuildOutcome where
  | ok
  | calledProcessError (stage : Stage)
deriving DecidableEq

/-- The environment a build call runs in: which source files exist (a
cp of a missing file exits nonzero), the exit statuses the prepare tool
and the compiler will return, and the working directory (for
os.path.abspath). -/
structure BuildEnv where
  fileExists : String → Bool
  prepExit : Nat
  compileExit : Nat
  cwd : String

/-- Everything observable about one call to QMCsettings.build: files it
wrote itself, the staged local observable names (loc_Ofiles), every
spawned subprocess in order with its exit code, the diagnostic messages
printed on failure paths, the log file state, and how the call
terminated. -/
structure BuildTrace where
  writtenFiles : List (String × String)
  stagedNames : List String
  procs : List SpawnedProc
  errorMessages : List String
  logOpened : Bool
  logClosed : Bool
  outcome : BuildOutcome

/-- The fields of a QMCsettings object as read by build on the normal CLI
path, where the hamiltonian path and the custom observable entries are
strings. -/
structure SimSettings where
  numerical : List (String × PyVal)
  std_observables : List (String × PyVal)
  custom_observable_files : List String
  hamiltonian_file : String

/-- QMCsettings.build: write parameters.hpp, stage each custom observable
file with a cp subprocess under the local name O + basename, run the
prepare tool on the hamiltonian path plus the staged names, and if it
exits zero run the compiler; a nonzero exit of either stage prints a
diagnosis naming the stage and the log location and re-raises the
CalledProcessError, skipping everything after it (in particular the
logfile.close() at the end of the function body). -/
def build (s : SimSettings) (executable_name CXX build_dir : String)
    (env : BuildEnv) (date : String) : BuildTrace :=
  let logfile_loc := pathJoin build_dir ("compile_" ++ date ++ ".log")
  let loc_Ofiles := s.custom_observable_files.map (fun f => "O" ++ basename f)
  let cpProcs : List SpawnedProc := s.custom_observable_files.map (fun f =>
    { kind := ProcKind.cp
      cmd := ["cp", f, pathJoin build_dir ("O" ++ basename f)]
      exitCode := if env.fileExists f then 0 else 1 })
  let prep_command :=
    PREP_EXEC_PATH :: abspath env.cwd s.hamiltonian_file :: loc_Ofiles
  let main_compile :=
    [CXX, "-O3", "-std=c++11",
     "-o", abspath env.cwd executable_name, "-I", script_dir, "-I", ".",
     pathJoin script_dir "PMRQMC.cpp"]
  let base : BuildTrace :=
    { writtenFiles :=
        [(pathJoin build_dir "parameters.hpp",
          parameters_hpp_content s.numerical s.std_observables)]
      stagedNames := loc_Ofiles
      procs := cpProcs ++
        [{ kind := ProcKind.prepare, cmd := prep_command,
           exitCode := env.prepExit }]
      errorMessages := []
      logOpened := true
      logClosed := false
      outcome := .ok }
  if env.prepExit ≠ 0 then
    { base with
        errorMessages :=
          ["Failed to prepare headers.\n",
           "Check the logs in " ++ logfile_loc ++ " for details."]
        outcome := .calledProcessError .prepare }
  else
    let base2 : BuildTrace := { base with
      procs := base.procs ++
        [{ kind := ProcKind.compile, cmd := main_compile,
           exitCode := env.compileExit }] }
    if env.compileExit ≠ 0 then
      { base2 with
          errorMessages :=
            ["Failed to compile.\n",
             "Check the logs in " ++ logfile_loc ++ " for details."]
          outcome := .calledProcessError .compile }
    else
      { base2 with logClosed := true }

/-- Everything the __main__ block does with the parsed command line. -/
structure Args where
  hamiltonian : Option String
  observables : Option (List String)
  output_executable : String
  CXX : String
  temperature : Option Rat
  tmp_dir : String

/-- A Python exception escaping the __main__ block before build is
reached. -/
inductive MainError where
  | load (e : LoadError)
  | zeroDivision
  | hamiltonianTwice
  | hamiltonianMissing
deriving DecidableEq

/-- The temperature override step of __main__: when -T was given,
params is updated with beta = 1/temperature before QMCsettings is
constructed; a temperature of 0 raises ZeroDivisionError. -/
def effectiveParams (params : List (String × PyVal)) (args : Args) :
    Except MainError (List (String × PyVal)) :=
  match args.temperature with
  | some T =>
      if T = 0 then .error .zeroDivision
      else .ok (dictSet params "beta" (.float (1 / T)))
  | none => .ok params

/-- The post-load steps of __main__ after the hamiltonian source has been
resolved: the bare assert that a hamiltonian is present, then the loop
appending each -O argument individually to custom_observable_files. -/
def finishSettings2 (s : QMCsettings) (args : Args) :
    Except MainError QMCsettings :=
  if s.hamiltonian_file.isNone then .error .hamiltonianMissing
  else
    .ok (match args.observables with
      | some os =>
          { s with custom_observable_files :=
              s.custom_observable_files ++ os.map PyVal.str }
      | none => s)

/-- The hamiltonian-resolution steps of __main__: a -H argument on top of
a document-supplied hamiltonian raises the specified-twice Exception,
otherwise the -H argument fills the slot; then the remaining steps. -/
def finishSettings (s : QMCsettings) (args : Args) :
    Except MainError QMCsettings :=
  match args.hamiltonian with
  | some h =>
      if s.hamiltonian_file.isSome then .error .hamiltonianTwice
      else finishSettings2 { s with hamiltonian_file := some (.str h) } args
  | none => finishSettings2 s args

/-- The whole settings-construction part of __main__: temperature
override, QMCsettings construction (load_parameters may raise), then the
hamiltonian checks and the CLI observable appends. -/
def mainSettings (params : List (String × PyVal)) (args : Args) :
    Except MainError QMCsettings :=
  match effectiveParams params args with
  | .error e => .error e
  | .ok p =>
    match mkQMCsettings p with
    | .error e => .error (.load e)
    | .ok s => finishSettings s args

/-- Extraction of the string carried by a PyVal path (on the CLI flow the
hamiltonian and observable entries reaching build are strings). -/
def pyStrD : PyVal → String
  | .str s => s
  | _ => ""

/-- The QMCsettings fields as build consumes them. -/
def toSimSettings (s : QMCsettings) : SimSettings :=
  { numerical := s.numerical
    std_observables := s.std_observables
    custom_observable_files := s.custom_observable_files.map pyStrD
    hamiltonian_file := pyStrD (s.hamiltonian_file.getD (.str "")) }

/-- The __main__ block end to end: if any settings-construction step
raises, the exception escapes and build is never entered (so no file is
written by the orchestrator and no subprocess is spawned); otherwise the
build trace is produced. -/
def mainRun (params : List (String × PyVal)) (args : Args)
    (env : BuildEnv) (date : String) : Except MainError BuildTrace :=
  match mainSettings params args with
  | .error e => .error e
  | .ok s =>
      .ok (build (toSimSettings s) args.output_executable args.CXX
             args.tmp_dir env date)

example : mkQMCsettings [] = .ok initSettings := rfl

example :
    mkQMCsettings [("beta", PyVal.int 1)] =
      .error (LoadError.assertNumerical "beta") := rfl

example :
    mkQMCsettings [("observables", PyVal.list [PyVal.str "a", PyVal.str "b"])] =
      .ok { initSettings with
              custom_observable_files :=
                [PyVal.list [PyVal.str "a", PyVal.str "b"]] } := rfl

theorem setAssoc_map_fst (m : List (String × PyVal)) (k : String) (v : PyVal) :
    (setAssoc m k v).map Prod.fst = m.map Prod.fst := by
  induction m with
  | nil => rfl
  | cons p rest ih =>
      simp only [setAssoc, List.map_cons] at ih ⊢
      by_cases hp : p.1 = k <;> simp [hp, ih]

theorem lookupv_setAssoc_self {m : List (String × PyVal)} {k : String}
    (v : PyVal) (h : (lookupv k m).isSome) :
    lookupv k (setAssoc m k v) = some v := by
  induction m with
  | nil => simp [lookupv] at h
  | cons p rest ih =>
      by_cases hp : p.1 = k
      · simp [setAssoc, lookupv, hp]
      · simp only [lookupv, hp, if_false] at h
        simp [setAssoc, lookupv, hp] at ih ⊢
        exact ih h

theorem lookupv_setAssoc_ne {m : List (String × PyVal)} {k j : String}
    (v : PyVal) (h : j ≠ k) :
    lookupv k (setAssoc m j v) = lookupv k m := by
  induction m with
  | nil => rfl
  | cons p rest ih =>
      simp only [setAssoc, List.map_cons] at ih ⊢
      by_cases hp : p.1 = j
      · rw [if_pos hp]
        simp only [lookupv]
        rw [if_neg h, ih]
        have hpk : ¬p.1 = k := by rw [hp]; exact h
        rw [if_neg hpk]
      · rw [if_neg hp]
        simp only [lookupv]
        rw [ih]

theorem lookupv_isSome_iff {k : String} {m : List (String × PyVal)} :
    (lookupv k m).isSome ↔ k ∈ m.map Prod.fst := by
  induction m with
  | nil => simp [lookupv]
  | cons p rest ih =>
      by_cases hp : p.1 = k
      · simp [lookupv, hp]
      · simp only [lookupv, hp, if_false, List.map_cons, List.mem_cons, ih]
        constructor
        · exact fun hh => Or.inr hh
        · rintro (hh | hh)
          · exact absurd hh.symm hp
          · exact hh

theorem lookupv_none_iff {k : String} {m : List (String × PyVal)} :
    lookupv k m = none ↔ k ∉ m.map Prod.fst := by
  rw [← lookupv_isSome_iff]
  cases h : lookupv k m <;> simp

/-- Complete case analysis of a successful loadStep. -/
theorem loadStep_inv {s : QMCsettings} {kv : String × PyVal} {t : QMCsettings}
    (h : loadStep s kv = .ok t) :
    (∃ d, lookupv kv.1 s.numerical = some d ∧ pyType d = pyType kv.2 ∧
       t = { s with numerical := setAssoc s.numerical kv.1 kv.2 }) ∨
    (lookupv kv.1 s.numerical = none ∧
       (∃ d, lookupv kv.1 s.std_observables = some d) ∧
       pyType kv.2 = PyType.bool ∧
       t = { s with std_observables := setAssoc s.std_observables kv.1 kv.2 }) ∨
    (lookupv kv.1 s.numerical = none ∧
       lookupv kv.1 s.std_observables = none ∧
       ((kv.1 = "observables" ∧
           t = { s with custom_observable_files :=
                   s.custom_observable_files ++ [kv.2] }) ∨
        (kv.1 ≠ "observables" ∧ kv.1 = "hamiltonian" ∧
           t = { s with hamiltonian_file := some kv.2 }) ∨
        (kv.1 ≠ "observables" ∧ kv.1 ≠ "hamiltonian" ∧ t = s))) := by
  unfold loadStep at h
  split at h
  next d hd =>
    split at h
    next hty =>
      injection h with h
      exact Or.inl ⟨d, hd, hty, h.symm⟩
    next => exact absurd h (by simp)
  next hd =>
    split at h
    next d hv =>
      split at h
      next hty =>
        injection h with h
        exact Or.inr (Or.inl ⟨hd, ⟨d, hv⟩, hty, h.symm⟩)
      next => exact absurd h (by simp)
    next hv =>
      split at h
      next hobs =>
        injection h with h
        exact Or.inr (Or.inr ⟨hd, hv, Or.inl ⟨hobs, h.symm⟩⟩)
      next hobs =>
        split at h
        next hham =>
          injection h with h
          exact Or.inr (Or.inr ⟨hd, hv, Or.inr (Or.inl ⟨hobs, hham, h.symm⟩)⟩)
        next hham =>
          injection h with h
          exact Or.inr (Or.inr ⟨hd, hv, Or.inr (Or.inr ⟨hobs, hham, h.symm⟩)⟩)

theorem loadStep_fst {s : QMCsettings} {kv : String × PyVal} {t : QMCsettings}
    (h : loadStep s kv = .ok t) :
    t.numerical.map Prod.fst = s.numerical.map Prod.fst ∧
    t.std_observables.map Prod.fst = s.std_observables.map Prod.fst := by
  rcases loadStep_inv h with ⟨d, _, _, rfl⟩ | ⟨_, _, _, rfl⟩ | ⟨_, _, hc⟩
  · exact ⟨setAssoc_map_fst _ _ _, rfl⟩
  · exact ⟨rfl, setAssoc_map_fst _ _ _⟩
  · rcases hc with ⟨_, rfl⟩ | ⟨_, _, rfl⟩ | ⟨_, _, rfl⟩ <;> exact ⟨rfl, rfl⟩

theorem loadStep_lookup_ne {s : QMCsettings} {kv : String × PyVal}
    {t : QMCsettings} (k : String) (h : loadStep s kv = .ok t)
    (hk : kv.1 ≠ k) : lookupv k t.numerical = lookupv k s.numerical := by
  rcases loadStep_inv h with ⟨d, _, _, rfl⟩ | ⟨_, _, _, rfl⟩ | ⟨_, _, hc⟩
  · exact lookupv_setAssoc_ne _ hk
  · rfl
  · rcases hc with ⟨_, rfl⟩ | ⟨_, _, rfl⟩ | ⟨_, _, rfl⟩ <;> rfl

theorem loadStep_set_numerical {s t : QMCsettings} {k : String} {v : PyVal}
    (h : loadStep s (k, v) = .ok t)
    (hk : (lookupv k s.numerical).isSome) :
    lookupv k t.numerical = some v := by
  rcases loadStep_inv h with ⟨d, hd, _, rfl⟩ | ⟨hnone, _, _, rfl⟩ | ⟨hnone, _, _⟩
  · exact lookupv_setAssoc_self _ hk
  · rw [hnone] at hk; simp at hk
  · rw [hnone] at hk; simp at hk

theorem loadStep_pyType {s t : QMCsettings} {kv : String × PyVal}
    {k : String} {w : PyVal} (h : loadStep s kv = .ok t)
    (hw : lookupv k s.numerical = some w) :
    ∃ u, lookupv k t.numerical = some u ∧ pyType u = pyType w := by
  rcases loadStep_inv h with ⟨d, hd, hty, rfl⟩ | ⟨_, _, _, rfl⟩ | ⟨_, _, hc⟩
  · by_cases hk : kv.1 = k
    · subst hk
      rw [hd] at hw
      injection hw with hw
      subst hw
      exact ⟨kv.2, lookupv_setAssoc_self _ (by simp [hd]), hty.symm⟩
    · exact ⟨w, by rw [lookupv_setAssoc_ne _ hk]; exact hw, rfl⟩
  · exact ⟨w, hw, rfl⟩
  · rcases hc with ⟨_, rfl⟩ | ⟨_, _, rfl⟩ | ⟨_, _, rfl⟩ <;> exact ⟨w, hw, rfl⟩

theorem load_parameters_append (l1 l2 : List (String × PyVal))
    (s : QMCsettings) :
    load_parameters s (l1 ++ l2) =
      match load_parameters s l1 with
      | .ok t => load_parameters t l2
      | .error e => .error e := by
  induction l1 generalizing s with
  | nil => simp [load_parameters]
  | cons kv rest ih =>
      simp only [List.cons_append, load_parameters]
      cases h : loadStep s kv with
      | ok t => simp [ih]
      | error e => simp

theorem load_parameters_fst {data : List (String × PyVal)} :
    ∀ {s t : QMCsettings}, load_parameters s data = .ok t →
    t.numerical.map Prod.fst = s.numerical.map Prod.fst ∧
    t.std_observables.map Prod.fst = s.std_observables.map Prod.fst := by
  induction data with
  | nil =>
      intro s t h
      injection h with h
      subst h
      exact ⟨rfl, rfl⟩
  | cons kv rest ih =>
      intro s t h
      simp only [load_parameters] at h
      cases hs : loadStep s kv with
      | error e => rw [hs] at h; exact absurd h (by simp)
      | ok u =>
          rw [hs] at h
          obtain ⟨h1, h2⟩ := ih h
          obtain ⟨g1, g2⟩ := loadStep_fst hs
          exact ⟨h1.trans g1, h2.trans g2⟩

theorem load_parameters_pyType {data : List (String × PyVal)} :
    ∀ {s t : QMCsettings} {k : String} {w : PyVal},
    load_parameters s data = .ok t →
    lookupv k s.numerical = some w →
    ∃ u, lookupv k t.numerical = some u ∧ pyType u = pyType w := by
  induction data with
  | nil =>
      intro s t k w h hw
      injection h with h
      subst h
      exact ⟨w, hw, rfl⟩
  | cons kv rest ih =>
      intro s t k w h hw
      simp only [load_parameters] at h
      cases hs : loadStep s kv with
      | error e => rw [hs] at h; exact absurd h (by simp)
      | ok u =>
          rw [hs] at h
          obtain ⟨u1, hu1, ht1⟩ := loadStep_pyType hs hw
          obtain ⟨u2, hu2, ht2⟩ := ih h hu1
          exact ⟨u2, hu2, ht2.trans ht1⟩

theorem load_parameters_set {k : String} {v : PyVal}
    {data : List (String × PyVal)} :
    ∀ {s t : QMCsettings},
    load_parameters s data = .ok t →
    (∀ p ∈ data, p.1 = k → p.2 = v) →
    (lookupv k s.numerical).isSome →
    lookupv k t.numerical =
      (if data.any (fun p => p.1 == k) then some v
       else lookupv k s.numerical) := by
  induction data with
  | nil =>
      intro s t h _ _
      injection h with h
      subst h
      simp
  | cons p rest ih =>
      intro s t h hall hk
      simp only [load_parameters] at h
      cases hs : loadStep s p with
      | error e => rw [hs] at h; exact absurd h (by simp)
      | ok u =>
          rw [hs] at h
          by_cases hp : p.1 = k
          · subst hp
            have hv := hall p (List.mem_cons_self p rest) rfl
            subst hv
            have hset : lookupv p.1 u.numerical = some p.2 :=
              loadStep_set_numerical hs hk
            have hrest := ih h
              (fun q hq hq1 => hall q (List.mem_cons_of_mem _ hq) hq1)
              (by simp [hset])
            have hres : lookupv p.1 t.numerical = some p.2 := by
              rw [hrest]
              split
              · rfl
              · exact hset
            simp [List.any_cons, hres]
          · have hlu : lookupv k u.numerical = lookupv k s.numerical :=
              loadStep_lookup_ne k hs hp
            have hrest := ih h
              (fun q hq hq1 => hall q (List.mem_cons_of_mem _ hq) hq1)
              (by rw [hlu]; exact hk)
            rw [hrest, hlu]
            have hb : (p.1 == k) = false := by
              simp [hp]
            rw [List.any_cons, hb, Bool.false_or]

theorem loadStep_custom {s : QMCsettings} {kv : String × PyVal}
    {t : QMCsettings} (h : loadStep s kv = .ok t)
    (h1 : lookupv "observables" s.numerical = none)
    (h2 : lookupv "observables" s.std_observables = none) :
    t.custom_observable_files =
      s.custom_observable_files ++
        (if kv.1 == "observables" then [kv.2] else []) := by
  rcases loadStep_inv h with ⟨d, hd, _, rfl⟩ | ⟨_, ⟨d, hd⟩, _, rfl⟩ | ⟨_, _, hc⟩
  · by_cases hk : kv.1 = "observables"
    · rw [hk, h1] at hd
      exact absurd hd (by simp)
    · simp [hk]
  · by_cases hk : kv.1 = "observables"
    · rw [hk, h2] at hd
      exact absurd hd (by simp)
    · simp [hk]
  · rcases hc with ⟨hk, rfl⟩ | ⟨hk, _, rfl⟩ | ⟨hk, _, rfl⟩ <;> simp [hk]

theorem loadStep_none_preserved {s : QMCsettings} {kv : String × PyVal}
    {t : QMCsettings} (h : loadStep s kv = .ok t)
    (h1 : lookupv "observables" s.numerical = none)
    (h2 : lookupv "observables" s.std_observables = none) :
    lookupv "observables" t.numerical = none ∧
    lookupv "observables" t.std_observables = none := by
  obtain ⟨g1, g2⟩ := loadStep_fst h
  constructor
  · rw [lookupv_none_iff, g1, ← lookupv_none_iff]
    exact h1
  · rw [lookupv_none_iff, g2, ← lookupv_none_iff]
    exact h2

theorem load_parameters_custom {data : List (String × PyVal)} :
    ∀ {s t : QMCsettings},
    load_parameters s data = .ok t →
    lookupv "observables" s.numerical = none →
    lookupv "observables" s.std_observables = none →
    t.custom_observable_files =
      s.custom_observable_files ++
        (data.filter (fun p => p.1 == "observables")).map Prod.snd := by
  induction data with
  | nil =>
      intro s t h _ _
      injection h with h
      subst h
      simp
  | cons p rest ih =>
      intro s t h h1 h2
      simp only [load_parameters] at h
      cases hs : loadStep s p with
      | error e => rw [hs] at h; exact absurd h (by simp)
      | ok u =>
          rw [hs] at h
          obtain ⟨g1, g2⟩ := loadStep_none_preserved hs h1 h2
          have hu := loadStep_custom hs h1 h2
          have hrest := ih h g1 g2
          rw [hrest, hu]
          by_cases hp : p.1 = "observables"
          · simp [List.filter_cons, hp]
          · have hb : (p.1 == "observables") = false := by simp [hp]
            simp [List.filter_cons, hb]

theorem finishSettings2_inv {s : QMCsettings} {args : Args} {t : QMCsettings}
    (h : finishSettings2 s args = .ok t) :
    t.numerical = s.numerical ∧ t.std_observables = s.std_observables ∧
    t.hamiltonian_file = s.hamiltonian_file ∧
    t.custom_observable_files =
      s.custom_observable_files ++ (args.observables.getD []).map PyVal.str := by
  unfold finishSettings2 at h
  split at h
  · exact absurd h (by simp)
  · injection h with h
    subst h
    cases hobs : args.observables with
    | some os => simp [hobs]
    | none => simp [hobs]

theorem finishSettings_inv {s : QMCsettings} {args : Args} {t : QMCsettings}
    (h : finishSettings s args = .ok t) :
    t.numerical = s.numerical ∧ t.std_observables = s.std_observables ∧
    t.custom_observable_files =
      s.custom_observable_files ++ (args.observables.getD []).map PyVal.str := by
  unfold finishSettings at h
  split at h
  next h0 =>
    split at h
    next => exact absurd h (by simp)
    next =>
      obtain ⟨a, b, _, d2⟩ := finishSettings2_inv h
      exact ⟨a, b, d2⟩
  next =>
    obtain ⟨a, b, _, d2⟩ := finishSettings2_inv h
    exact ⟨a, b, d2⟩

theorem mainSettings_ok_inv {params : List (String × PyVal)} {args : Args}
    {s : QMCsettings} (h : mainSettings params args = .ok s) :
    ∃ p2 s0, effectiveParams params args = .ok p2 ∧
      mkQMCsettings p2 = .ok s0 ∧ finishSettings s0 args = .ok s := by
  unfold mainSettings at h
  split at h
  · exact absurd h (by simp)
  next p2 hp =>
    split at h
    · exact absurd h (by simp)
    next s0 hload => exact ⟨p2, s0, hp, hload, h⟩

theorem strAppend_left_cancel {a b c : String} (h : a ++ b = a ++ c) :
    b = c := by
  have hd : a.data ++ b.data = a.data ++ c.data := by
    have h2 := congrArg String.data h
    simpa [String.data_append] using h2
  exact String.ext (List.append_cancel_left hd)

theorem foldl_define_line (l : List (String × PyVal)) :
    ∀ acc : String,
    l.foldl (fun a p => a ++ define_line p.1 p.2) acc =
      acc ++ joinStr (l.map (fun p => define_line p.1 p.2)) := by
  induction l with
  | nil =>
      intro acc
      simp [joinStr]
  | cons p rest ih =>
      intro acc
      simp only [List.foldl_cons, List.map_cons, joinStr]
      rw [ih, String.append_assoc]

/-- The emitted constants file is the provenance header followed by one
define line per entry, self.numerical first and self.std_observables
second, each in the map's own insertion order. -/
theorem parameters_hpp_content_eq (num std : List (String × PyVal)) :
    parameters_hpp_content num std =
      hpp_header ++ joinStr (num.map fun p => define_line p.1 p.2)
        ++ joinStr (std.map fun p => define_line p.1 p.2) := by
  unfold parameters_hpp_content
  simp only [List.foldl_cons, List.foldl_nil]
  rw [foldl_define_line, foldl_define_line]

theorem dictSet_all (m : List (String × PyVal)) (k : String) (v : PyVal) :
    ∀ p ∈ dictSet m k v, p.1 = k → p.2 = v := by
  intro p hp hk
  unfold dictSet at hp
  by_cases hs : (lookupv k m).isSome
  · rw [if_pos hs] at hp
    simp only [setAssoc, List.mem_map] at hp
    obtain ⟨q, hq, hqe⟩ := hp
    by_cases hq1 : q.1 = k
    · rw [if_pos hq1] at hqe
      rw [← hqe]
    · rw [if_neg hq1] at hqe
      rw [← hqe] at hk
      exact absurd hk hq1
  · rw [if_neg hs] at hp
    rcases List.mem_append.mp hp with hm | hm
    · exact absurd (lookupv_isSome_iff.mpr (List.mem_map.mpr ⟨p, hm, hk⟩)) hs
    · rw [List.mem_singleton] at hm
      rw [hm]

theorem dictSet_any (m : List (String × PyVal)) (k : String) (v : PyVal) :
    (dictSet m k v).any (fun p => p.1 == k) = true := by
  unfold dictSet
  by_cases hs : (lookupv k m).isSome
  · rw [if_pos hs]
    obtain ⟨q, hq, hqk⟩ := List.mem_map.mp (lookupv_isSome_iff.mp hs)
    rw [List.any_eq_true]
    refine ⟨(k, v), ?_, by simp⟩
    simp only [setAssoc, List.mem_map]
    exact ⟨q, hq, by rw [if_pos hqk]⟩
  · rw [if_neg hs]
    rw [List.any_eq_true]
    exact ⟨(k, v), List.mem_append_right _ (List.mem_singleton_self _), by simp⟩

theorem build_stagedNames (s : SimSettings) (e c b date : String)
    (env : BuildEnv) :
    (build s e c b env date).stagedNames =
      s.custom_observable_files.map (fun f => "O" ++ basename f) := by
  simp only [build]
  split
  · rfl
  · split <;> rfl

theorem build_procs (s : SimSettings) (e c b date : String) (env : BuildEnv) :
    (build s e c b env date).procs =
      (s.custom_observable_files.map fun f =>
        { kind := ProcKind.cp
          cmd := ["cp", f, pathJoin b ("O" ++ basename f)]
          exitCode := if env.fileExists f then 0 else 1 })
      ++ [{ kind := ProcKind.prepare
            cmd := PREP_EXEC_PATH :: abspath env.cwd s.hamiltonian_file ::
                     s.custom_observable_files.map (fun f => "O" ++ basename f)
            exitCode := env.prepExit }]
      ++ (if env.prepExit = 0 then
            [({ kind := ProcKind.compile
                cmd := [c, "-O3", "-std=c++11", "-o", abspath env.cwd e,
                        "-I", script_dir, "-I", ".",
                        pathJoin script_dir "PMRQMC.cpp"]
                exitCode := env.compileExit } : SpawnedProc)]
          else []) := by
  simp only [build]
  split
  · simp
  · split <;> simp_all

theorem build_outcome (s : SimSettings) (e c b date : String)
    (env : BuildEnv) :
    (build s e c b env date).outcome =
      (if env.prepExit ≠ 0 then BuildOutcome.calledProcessError .prepare
       else if env.compileExit ≠ 0 then BuildOutcome.calledProcessError .compile
       else BuildOutcome.ok) := by
  simp only [build]
  by_cases hp : env.prepExit ≠ 0
  · simp [hp]
  · by_cases hc : env.compileExit ≠ 0 <;> simp [hp, hc]

/-- Claim C1: whenever the preparation stage exits nonzero, build raises
the CalledProcessError of the prepare stage (re-raising the raw
subprocess error), never spawns the compilation command, and prints a
diagnosis naming the preparation stage together with a pointer to the
log file. -/
theorem c1_prep_failure_fail_fast (s : SimSettings) (e c b date : String)
    (env : BuildEnv) (h : env.prepExit ≠ 0) :
    (build s e c b env date).outcome =
      BuildOutcome.calledProcessError .prepare
    ∧ (∀ p ∈ (build s e c b env date).procs, p.kind ≠ ProcKind.compile)
    ∧ (build s e c b env date).errorMessages =
        ["Failed to prepare headers.\n",
         "Check the logs in " ++ pathJoin b ("compile_" ++ date ++ ".log")
           ++ " for details."] := by
  refine ⟨?_, ?_, ?_⟩
  · rw [build_outcome, if_pos h]
  · rw [build_procs, if_neg (fun h0 => h h0)]
    intro p hp
    simp only [List.append_nil, List.mem_append, List.mem_map,
      List.mem_singleton] at hp
    rcases hp with ⟨f, _, rfl⟩ | rfl
    · simp
    · simp
  · simp only [build]
    rw [if_pos h]

/-- Witness for C1 at a concrete settings object and an environment in
which the prepare tool exits with status 1. -/
theorem c1_witness :
    (build ⟨default_numerical, default_std_observables, [], "h.txt"⟩
        "sim" "g++" "bld" ⟨fun _ => true, 1, 0, "w"⟩ "D").outcome =
      BuildOutcome.calledProcessError .prepare
    ∧ "Failed to prepare headers.\n" ∈
        (build ⟨default_numerical, default_std_observables, [], "h.txt"⟩
          "sim" "g++" "bld" ⟨fun _ => true, 1, 0, "w"⟩ "D").errorMessages := by
  have h := c1_prep_failure_fail_fast
    ⟨default_numerical, default_std_observables, [], "h.txt"⟩
    "sim" "g++" "bld" "D" ⟨fun _ => true, 1, 0, "w"⟩ (by decide)
  exact ⟨h.1, by rw [h.2.2]; exact List.mem_cons_self _ _⟩

/-- Claim C9, counterexample: when the prepare stage exits nonzero the
build call terminates (re-raising the error) with the log file opened
but not closed, so the log is not closed on every path as claimed. -/
theorem c9_counterexample :
    (build ⟨default_numerical, default_std_observables, [], "h.txt"⟩
        "sim" "g++" "bld" ⟨fun _ => true, 1, 0, "w"⟩ "DATE").logOpened = true
    ∧ (build ⟨default_numerical, default_std_observables, [], "h.txt"⟩
        "sim" "g++" "bld" ⟨fun _ => true, 1, 0, "w"⟩ "DATE").outcome =
        BuildOutcome.calledProcessError .prepare
    ∧ (build ⟨default_numerical, default_std_observables, [], "h.txt"⟩
        "sim" "g++" "bld" ⟨fun _ => true, 1, 0, "w"⟩ "DATE").logClosed =
        false :=
  ⟨rfl, rfl, rfl⟩

/-- Claim C9 as amended: the log file is opened on every build call, but
it is closed exactly on the successful path; a fatal abort of either
stage skips the close (the raise bypasses logfile.close()). -/
theorem c9_log_closed_iff_success (s : SimSettings) (e c b date : String)
    (env : BuildEnv) :
    (build s e c b env date).logOpened = true
    ∧ ((build s e c b env date).logClosed = true ↔
        (build s e c b env date).outcome = BuildOutcome.ok) := by
  simp only [build]
  by_cases hp : env.prepExit ≠ 0
  · simp [hp]
  · by_cases hc : env.compileExit ≠ 0 <;> simp [hp, hc]

/-- Claim C4, counterexample: with a single custom observable file that
does not exist, the cp subprocess exits with status 1, yet the prepare
tool and the compiler are both spawned and the build returns
successfully: the missing file is not a fatal staging error and does not
stop the pipeline. -/
theorem c4_counterexample :
    ((build ⟨default_numerical, default_std_observables, ["missing.txt"],
        "h.txt"⟩ "sim" "g++" "bld" ⟨fun _ => false, 0, 0, "w"⟩ "D").procs.map
          SpawnedProc.exitCode = [1, 0, 0])
    ∧ ((build ⟨default_numerical, default_std_observables, ["missing.txt"],
        "h.txt"⟩ "sim" "g++" "bld" ⟨fun _ => false, 0, 0, "w"⟩ "D").procs.map
          SpawnedProc.kind =
        [ProcKind.cp, ProcKind.prepare, ProcKind.compile])
    ∧ (build ⟨default_numerical, default_std_observables, ["missing.txt"],
        "h.txt"⟩ "sim" "g++" "bld" ⟨fun _ => false, 0, 0, "w"⟩ "D").outcome =
        BuildOutcome.ok :=
  ⟨rfl, rfl, rfl⟩

/-- Claim C4 as amended: build never checks the cp exit statuses — the
prepare tool is always spawned, and every observable part of the run
except the recorded cp exit codes is independent of which source files
exist. -/
theorem c4_missing_file_ignored (s : SimSettings) (e c b date : String)
    (env env2 : BuildEnv) (hprep : env.prepExit = env2.prepExit)
    (hcomp : env.compileExit = env2.compileExit) :
    (∃ p ∈ (build s e c b env date).procs, p.kind = ProcKind.prepare)
    ∧ (build s e c b env date).outcome = (build s e c b env2 date).outcome
    ∧ (build s e c b env date).stagedNames =
        (build s e c b env2 date).stagedNames := by
  refine ⟨?_, ?_, ?_⟩
  · rw [build_procs]
    exact ⟨_, List.mem_append_left _
      (List.mem_append_right _ (List.mem_singleton_self _)), rfl⟩
  · rw [build_outcome, build_outcome, hprep, hcomp]
  · rw [build_stagedNames, build_stagedNames]

/-- Witness for the amended C4 at concrete environments: one in which
the observable file exists and one in which it does not. -/
theorem c4_witness :
    (∃ p ∈ (build ⟨default_numerical, default_std_observables, ["obs.txt"],
        "h.txt"⟩ "sim" "g++" "bld" ⟨fun _ => false, 0, 0, "w"⟩ "D").procs,
        p.kind = ProcKind.prepare)
    ∧ (build ⟨default_numerical, default_std_observables, ["obs.txt"],
        "h.txt"⟩ "sim" "g++" "bld" ⟨fun _ => false, 0, 0, "w"⟩ "D").outcome =
      (build ⟨default_numerical, default_std_observables, ["obs.txt"],
        "h.txt"⟩ "sim" "g++" "bld" ⟨fun _ => true, 0, 0, "w"⟩ "D").outcome := by
  have h := c4_missing_file_ignored
    ⟨default_numerical, default_std_observables, ["obs.txt"], "h.txt"⟩
    "sim" "g++" "bld" "D" ⟨fun _ => false, 0, 0, "w"⟩ ⟨fun _ => true, 0, 0, "w"⟩
    rfl rfl
  exact ⟨h.1, h.2.1⟩

/-- Claim C7: the staged local names are the input files in input order
(each renamed to O + basename), the prepare tool receives exactly those
names in that order after the executable path and the hamiltonian path,
and reversing the input sequence reverses the staged sequence. -/
theorem c7_staging_order_preserved (files : List String)
    (num std : List (String × PyVal)) (ham e c b date : String)
    (env : BuildEnv) :
    (build ⟨num, std, files, ham⟩ e c b env date).stagedNames =
      files.map (fun f => "O" ++ basename f)
    ∧ (((build ⟨num, std, files, ham⟩ e c b env date).procs.filter
          (fun p => p.kind == ProcKind.prepare)).map SpawnedProc.cmd) =
        [PREP_EXEC_PATH :: abspath env.cwd ham ::
           files.map (fun f => "O" ++ basename f)]
    ∧ (build ⟨num, std, files.reverse, ham⟩ e c b env date).stagedNames =
        ((build ⟨num, std, files, ham⟩ e c b env date).stagedNames).reverse := by
  refine ⟨build_stagedNames _ _ _ _ _ _, ?_, ?_⟩
  · rw [build_procs, List.filter_append, List.filter_append]
    have h1 : (files.map (fun f =>
        ({ kind := ProcKind.cp
           cmd := ["cp", f, pathJoin b ("O" ++ basename f)]
           exitCode := if env.fileExists f then 0 else 1 } : SpawnedProc))).filter
          (fun p => p.kind == ProcKind.prepare) = [] := by
      rw [List.filter_eq_nil_iff]
      intro p hp
      obtain ⟨f, _, rfl⟩ := List.mem_map.mp hp
      simp
    have h2 : ((if env.prepExit = 0 then
          [({ kind := ProcKind.compile
              cmd := [c, "-O3", "-std=c++11", "-o", abspath env.cwd e,
                      "-I", script_dir, "-I", ".",
                      pathJoin script_dir "PMRQMC.cpp"]
              exitCode := env.compileExit } : SpawnedProc)]
        else []).filter (fun p => p.kind == ProcKind.prepare)) = [] := by
      split
      · simp
      · rfl
    rw [h1, h2]
    simp [List.filter_singleton]
  · rw [build_stagedNames, build_stagedNames, List.map_reverse]

/-- Claim C8, counterexample: two distinct input paths that share a
basename are staged under the same local name, so the second cp
overwrites the first staged copy — the staged names are not
collision-avoiding for distinct inputs. -/
theorem c8_counterexample :
    ("dirA/ops.txt" : String) ≠ "dirB/ops.txt"
    ∧ (build ⟨default_numerical, default_std_observables,
          ["dirA/ops.txt", "dirB/ops.txt"], "h.txt"⟩
        "sim" "g++" "bld" ⟨fun _ => true, 0, 0, "w"⟩ "D").stagedNames =
        ["Oops.txt", "Oops.txt"]
    ∧ ¬ ((build ⟨default_numerical, default_std_observables,
          ["dirA/ops.txt", "dirB/ops.txt"], "h.txt"⟩
        "sim" "g++" "bld" ⟨fun _ => true, 0, 0, "w"⟩ "D").stagedNames).Nodup := by
  refine ⟨by decide, rfl, ?_⟩
  rw [show (build ⟨default_numerical, default_std_observables,
        ["dirA/ops.txt", "dirB/ops.txt"], "h.txt"⟩
      "sim" "g++" "bld" ⟨fun _ => true, 0, 0, "w"⟩ "D").stagedNames =
      ["Oops.txt", "Oops.txt"] from rfl]
  decide

/-- Claim C8 as amended: each file is staged under the name O + basename
(a prefix that separates staged copies from generated files); staged
names are pairwise distinct whenever the inputs' basenames are pairwise
distinct, but inputs sharing a basename collide. -/
theorem c8_staged_names_nodup_of_basenames (files : List String)
    (num std : List (String × PyVal)) (ham e c b date : String)
    (env : BuildEnv) (h : (files.map basename).Nodup) :
    (build ⟨num, std, files, ham⟩ e c b env date).stagedNames =
      files.map (fun f => "O" ++ basename f)
    ∧ ((build ⟨num, std, files, ham⟩ e c b env date).stagedNames).Nodup := by
  have h1 := build_stagedNames (⟨num, std, files, ham⟩ : SimSettings)
    e c b date env
  refine ⟨h1, ?_⟩
  rw [h1]
  have h2 : files.map (fun f => "O" ++ basename f) =
      (files.map basename).map (fun x => "O" ++ x) := by
    rw [List.map_map]
    rfl
  rw [h2]
  exact List.Nodup.map (fun x y hxy => strAppend_left_cancel hxy) h

/-- Witness for the amended C8 at two files with distinct basenames. -/
theorem c8_witness :
    (build ⟨default_numerical, default_std_observables,
        ["dirA/a.txt", "dirB/b.txt"], "h.txt"⟩
      "sim" "g++" "bld" ⟨fun _ => true, 0, 0, "w"⟩ "D").stagedNames =
      ["dirA/a.txt", "dirB/b.txt"].map (fun f => "O" ++ basename f)
    ∧ ((build ⟨default_numerical, default_std_observables,
        ["dirA/a.txt", "dirB/b.txt"], "h.txt"⟩
      "sim" "g++" "bld" ⟨fun _ => true, 0, 0, "w"⟩ "D").stagedNames).Nodup :=
  c8_staged_names_nodup_of_basenames ["dirA/a.txt", "dirB/b.txt"]
    default_numerical default_std_observables "h.txt" "sim" "g++" "bld" "D"
    ⟨fun _ => true, 0, 0, "w"⟩ (by decide)

/-- Claim C2, counterexample: the spec's type rule classifies the integer
1 and the float 1.0 as the same numeric type, so beta = 1 (an integer
for the float-valued default) should be accepted; the code's
type(default) is type(value) check rejects it with an AssertionError. -/
theorem c2_counterexample :
    specTypeClass (PyVal.int 1) = specTypeClass (PyVal.float 1)
    ∧ mkQMCsettings [("beta", PyVal.int 1)] =
        .error (LoadError.assertNumerical "beta") :=
  ⟨rfl, rfl⟩

/-- Claim C2 as amended: loading enforces exact runtime-type equality
with the default, not numeric-class equality — every accepted document
has, at each recognized numerical key, a value of exactly the default's
runtime type (so int and float are not interchangeable), at each
recognized observable key a boolean; and a value of exactly the
default's type is accepted. -/
theorem c2_exact_type_matching :
    (∀ (data : List (String × PyVal)) (t : QMCsettings) (k : String)
       (v d : PyVal), mkQMCsettings data = .ok t → (k, v) ∈ data →
       lookupv k default_numerical = some d → pyType v = pyType d)
    ∧ (∀ (data : List (String × PyVal)) (t : QMCsettings) (k : String)
         (v : PyVal), mkQMCsettings data = .ok t → (k, v) ∈ data →
         lookupv k default_numerical = none →
         (lookupv k default_std_observables).isSome →
         pyType v = PyType.bool)
    ∧ (∀ (k : String) (v d : PyVal),
         lookupv k default_numerical = some d → pyType v = pyType d →
         mkQMCsettings [(k, v)] =
           .ok { initSettings with
                   numerical := setAssoc default_numerical k v }) := by
  refine ⟨?_, ?_, ?_⟩
  · intro data t k v d h hmem hd
    obtain ⟨pre, post, rfl⟩ := List.append_of_mem hmem
    rw [mkQMCsettings, load_parameters_append] at h
    cases h1 : load_parameters initSettings pre with
    | error e => rw [h1] at h; exact absurd h (by simp)
    | ok s1 =>
        rw [h1] at h
        simp only [load_parameters] at h
        cases h2 : loadStep s1 (k, v) with
        | error e => rw [h2] at h; exact absurd h (by simp)
        | ok s2 =>
            obtain ⟨w, hw, hty⟩ := load_parameters_pyType h1
              (show lookupv k initSettings.numerical = some d from hd)
            rcases loadStep_inv h2 with ⟨d2, hd2, hty2, _⟩ |
              ⟨hnone, _, _, _⟩ | ⟨hnone, _, _⟩
            · rw [hw] at hd2
              injection hd2 with hd2
              subst hd2
              exact hty2.symm.trans hty
            · rw [hnone] at hw; exact absurd hw (by simp)
            · rw [hnone] at hw; exact absurd hw (by simp)
  · intro data t k v h hmem hnum hstd
    obtain ⟨pre, post, rfl⟩ := List.append_of_mem hmem
    rw [mkQMCsettings, load_parameters_append] at h
    cases h1 : load_parameters initSettings pre with
    | error e => rw [h1] at h; exact absurd h (by simp)
    | ok s1 =>
        rw [h1] at h
        simp only [load_parameters] at h
        cases h2 : loadStep s1 (k, v) with
        | error e => rw [h2] at h; exact absurd h (by simp)
        | ok s2 =>
            have hnum1 : lookupv k s1.numerical = none := by
              rw [lookupv_none_iff, (load_parameters_fst h1).1,
                ← lookupv_none_iff]
              exact hnum
            have hstd1 : (lookupv k s1.std_observables).isSome := by
              rw [lookupv_isSome_iff, (load_parameters_fst h1).2,
                ← lookupv_isSome_iff]
              exact hstd
            rcases loadStep_inv h2 with ⟨d2, hd2, _, _⟩ |
              ⟨_, _, hty2, _⟩ | ⟨_, hnone2, _⟩
            · rw [hnum1] at hd2; exact absurd hd2 (by simp)
            · exact hty2
            · rw [hnone2] at hstd1; simp at hstd1
  · intro k v d hd hty
    have hstep : loadStep initSettings (k, v) =
        .ok { initSettings with
                numerical := setAssoc default_numerical k v } := by
      unfold loadStep
      simp only [initSettings]
      simp only [hd]
      rw [if_pos hty.symm]
    rw [mkQMCsettings]
    simp only [load_parameters, hstep]

/-- Witness for the amended C2: the accepted float update beta = 2.0, and
conjunct 1 applied to a concrete accepted document with an integer for
the integer-default key Tsteps. -/
theorem c2_witness :
    mkQMCsettings [("beta", PyVal.float 2)] =
      .ok { initSettings with
              numerical := setAssoc default_numerical "beta" (PyVal.float 2) }
    ∧ pyType (PyVal.int 5) = pyType (PyVal.int 1000000) := by
  constructor
  · exact c2_exact_type_matching.2.2 "beta" (PyVal.float 2) (PyVal.float 1)
      rfl rfl
  · exact c2_exact_type_matching.1 [("Tsteps", PyVal.int 5)]
      { initSettings with
          numerical := setAssoc default_numerical "Tsteps" (PyVal.int 5) }
      "Tsteps" (PyVal.int 5) (PyVal.int 1000000) rfl
      (List.mem_singleton_self _) rfl

/-- Claim C3: when the settings construction succeeds up to the
hamiltonian checks, a -H argument on top of a document-supplied
hamiltonian makes the whole invocation fail with the specified-twice
error, and no hamiltonian from either source makes it fail with the
missing-hamiltonian assert; in either case mainRun returns an error and
build is never entered, so the orchestrator writes no file and spawns no
subprocess. -/
theorem c3_hamiltonian_exactly_once (params p2 : List (String × PyVal))
    (args : Args) (env : BuildEnv) (date : String) (s0 : QMCsettings)
    (hp : effectiveParams params args = .ok p2)
    (hs : mkQMCsettings p2 = .ok s0) :
    (∀ h, args.hamiltonian = some h → s0.hamiltonian_file.isSome →
       mainRun params args env date = .error .hamiltonianTwice)
    ∧ (args.hamiltonian = none → s0.hamiltonian_file = none →
       mainRun params args env date = .error .hamiltonianMissing) := by
  constructor
  · intro h hh hsome
    have hmain : mainSettings params args = .error .hamiltonianTwice := by
      unfold mainSettings
      simp only [hp, hs]
      unfold finishSettings
      simp only [hh, if_pos hsome]
    unfold mainRun
    rw [hmain]
  · intro hh hnone
    have hmain : mainSettings params args = .error .hamiltonianMissing := by
      unfold mainSettings
      simp only [hp, hs]
      unfold finishSettings
      simp only [hh]
      unfold finishSettings2
      simp [hnone]
    unfold mainRun
    rw [hmain]

/-- Witness for C3: one invocation with the hamiltonian in both the
document and the command line, one with it in neither. -/
theorem c3_witness :
    mainRun [("hamiltonian", PyVal.str "h1.txt")]
        ⟨some "h2.txt", none, "sim", "g++", none, "build"⟩
        ⟨fun _ => true, 0, 0, "w"⟩ "D" = .error .hamiltonianTwice
    ∧ mainRun [] ⟨none, none, "sim", "g++", none, "build"⟩
        ⟨fun _ => true, 0, 0, "w"⟩ "D" = .error .hamiltonianMissing := by
  constructor
  · exact (c3_hamiltonian_exactly_once
      [("hamiltonian", PyVal.str "h1.txt")]
      [("hamiltonian", PyVal.str "h1.txt")]
      ⟨some "h2.txt", none, "sim", "g++", none, "build"⟩
      ⟨fun _ => true, 0, 0, "w"⟩ "D"
      { initSettings with hamiltonian_file := some (PyVal.str "h1.txt") }
      rfl rfl).1 "h2.txt" rfl rfl
  · exact (c3_hamiltonian_exactly_once [] []
      ⟨none, none, "sim", "g++", none, "build"⟩
      ⟨fun _ => true, 0, 0, "w"⟩ "D" initSettings rfl rfl).2 rfl rfl

/-- Claim C5: a command-line temperature of exactly 0 makes the
invocation fail with the ZeroDivisionError of 1./temperature before any
settings are built; a nonzero temperature T forces the effective beta to
be exactly 1/T (in exact rational arithmetic) in every successfully
constructed settings object, overriding any beta the document
supplied. -/
theorem c5_temperature_override (params : List (String × PyVal))
    (args : Args) (T : Rat) (hT : args.temperature = some T) :
    (T = 0 → mainSettings params args = .error .zeroDivision)
    ∧ (∀ s, T ≠ 0 → mainSettings params args = .ok s →
        lookupv "beta" s.numerical = some (.float (1 / T))) := by
  constructor
  · intro h0
    subst h0
    simp [mainSettings, effectiveParams, hT]
  · intro s hT0 hs
    obtain ⟨p2, s0, hp, hload, hfin⟩ := mainSettings_ok_inv hs
    have h1 : effectiveParams params args =
        .ok (dictSet params "beta" (.float (1 / T))) := by
      unfold effectiveParams
      simp only [hT]
      rw [if_neg hT0]
    rw [h1] at hp
    injection hp with hp
    subst hp
    rw [(finishSettings_inv hfin).1]
    have hall := dictSet_all params "beta" (.float (1 / T))
    have hany := dictSet_any params "beta" (.float (1 / T))
    have hbase : (lookupv "beta" initSettings.numerical).isSome := rfl
    have hset := load_parameters_set hload hall hbase
    rw [hset, if_pos hany]

/-- Witness for C5: temperature 0 is rejected; temperature 4 yields
beta = 1/4 even though the document supplied beta = 7.5. -/
theorem c5_witness :
    mainSettings [("beta", PyVal.float (15 / 2))]
        ⟨some "h.txt", none, "sim", "g++", some 0, "build"⟩ =
      .error .zeroDivision
    ∧ lookupv "beta"
        (QMCsettings.numerical
          ⟨setAssoc (setAssoc default_numerical "beta" (PyVal.float (15 / 2)))
              "beta" (PyVal.float (1 / 4)),
            default_std_observables, [], some (PyVal.str "h.txt")⟩) =
        some (PyVal.float (1 / 4)) := by
  constructor
  · exact (c5_temperature_override [("beta", PyVal.float (15 / 2))]
      ⟨some "h.txt", none, "sim", "g++", some 0, "build"⟩ 0 rfl).1 rfl
  · exact (c5_temperature_override [("beta", PyVal.float (15 / 2))]
      ⟨some "h.txt", none, "sim", "g++", some 4, "build"⟩ 4 rfl).2
      ⟨setAssoc (setAssoc default_numerical "beta" (PyVal.float (15 / 2)))
          "beta" (PyVal.float (1 / 4)),
        default_std_observables, [], some (PyVal.str "h.txt")⟩
      (by norm_num) rfl

/-- Claim C6: the emitted parameters.hpp content is a pure function of
the two maps — writing it into two different destination directories
produces byte-identical contents — laid out as the provenance header,
then one define line per numerical entry, then one per observable flag,
each map in its own insertion order; and every settings object produced
by load_parameters keeps exactly the default maps' key sequence, so the
emitted order is the declaration order of the defaults. -/
theorem c6_emitter_deterministic (num std : List (String × PyVal))
    (d1 d2 : String) (data : List (String × PyVal)) (t : QMCsettings)
    (h : mkQMCsettings data = .ok t) :
    (write_parameters_hpp num std d1).2 = (write_parameters_hpp num std d2).2
    ∧ parameters_hpp_content num std =
        hpp_header ++ joinStr (num.map fun p => define_line p.1 p.2)
          ++ joinStr (std.map fun p => define_line p.1 p.2)
    ∧ t.numerical.map Prod.fst = default_numerical.map Prod.fst
    ∧ t.std_observables.map Prod.fst = default_std_observables.map Prod.fst := by
  obtain ⟨g1, g2⟩ := load_parameters_fst h
  exact ⟨rfl, parameters_hpp_content_eq num std, g1, g2⟩

/-- Witness for C6 at the default maps, two distinct destinations, and a
concrete loaded document. -/
theorem c6_witness :
    (write_parameters_hpp default_numerical default_std_observables
        "bldA").2 =
      (write_parameters_hpp default_numerical default_std_observables
        "bldB").2
    ∧ (QMCsettings.numerical
          { initSettings with
              numerical := setAssoc default_numerical "qmax"
                (PyVal.int 50) }).map Prod.fst =
        default_numerical.map Prod.fst := by
  have h := c6_emitter_deterministic default_numerical
    default_std_observables "bldA" "bldB" [("qmax", PyVal.int 50)]
    { initSettings with
        numerical := setAssoc default_numerical "qmax" (PyVal.int 50) }
    rfl
  exact ⟨h.1, h.2.2.1⟩

/-- Claim C10: each occurrence of the reserved key observables in the
configuration document appends its value itself as one element of
custom_observable_files (a TOML list value lands as a single nested
element), while each command-line -O argument is appended as its own
string element after the document-derived elements. -/
theorem c10_observables_append :
    (∀ (data : List (String × PyVal)) (t : QMCsettings),
       mkQMCsettings data = .ok t →
       t.custom_observable_files =
         (data.filter (fun p => p.1 == "observables")).map Prod.snd)
    ∧ (∀ (params : List (String × PyVal)) (args : Args) (os : List String)
         (s : QMCsettings), args.observables = some os →
       mainSettings params args = .ok s →
       ∃ p2, effectiveParams params args = .ok p2 ∧
         s.custom_observable_files =
           (p2.filter (fun p => p.1 == "observables")).map Prod.snd
             ++ os.map PyVal.str) := by
  have hcfg : ∀ (data : List (String × PyVal)) (t : QMCsettings),
      mkQMCsettings data = .ok t →
      t.custom_observable_files =
        (data.filter (fun p => p.1 == "observables")).map Prod.snd := by
    intro data t h
    have := load_parameters_custom h rfl rfl
    simpa using this
  refine ⟨hcfg, ?_⟩
  intro params args os s hos hs
  unfold mainSettings at hs
  cases hp : effectiveParams params args with
  | error e => rw [hp] at hs; exact absurd hs (by simp)
  | ok p2 =>
      simp only [hp] at hs
      cases hload : mkQMCsettings p2 with
      | error e => simp [hload] at hs
      | ok s0 =>
          simp only [hload] at hs
          refine ⟨p2, rfl, ?_⟩
          have hfin := (finishSettings_inv hs).2.2
          rw [hfin, hcfg p2 s0 hload, hos]
          rfl

/-- Witness for C10: a document whose observables value is a two-element
list yields one nested element, and two -O arguments yield two string
elements. -/
theorem c10_witness :
    QMCsettings.custom_observable_files
        { initSettings with
            custom_observable_files :=
              [PyVal.list [PyVal.str "a.txt", PyVal.str "b.txt"]] } =
      [PyVal.list [PyVal.str "a.txt", PyVal.str "b.txt"]]
    ∧ QMCsettings.custom_observable_files
        { initSettings with
            custom_observable_files := [PyVal.str "x.txt", PyVal.str "y.txt"]
            hamiltonian_file := some (PyVal.str "h.txt") } =
        [PyVal.str "x.txt", PyVal.str "y.txt"] := by
  constructor
  · exact c10_observables_append.1
      [("observables", PyVal.list [PyVal.str "a.txt", PyVal.str "b.txt"])]
      { initSettings with
          custom_observable_files :=
            [PyVal.list [PyVal.str "a.txt", PyVal.str "b.txt"]] }
      rfl
  · obtain ⟨p2, hp2, hc⟩ := c10_observables_append.2
      [("hamiltonian", PyVal.str "h.txt")]
      ⟨none, some ["x.txt", "y.txt"], "sim", "g++", none, "build"⟩
      ["x.txt", "y.txt"]
      { initSettings with
          custom_observable_files := [PyVal.str "x.txt", PyVal.str "y.txt"]
          hamiltonian_file := some (PyVal.str "h.txt") }
      rfl rfl
    have h0 : (Except.ok [("hamiltonian", PyVal.str "h.txt")] :
        Except MainError (List (String × PyVal))) = .ok p2 := hp2
    injection h0 with h0
    subst h0
    rw [hc]
    rfl

end ConstructSim
